import Mathlib

/-!
Verification of the mock data / network-simulation layer of the
redux-playground repository: the fixture generator in `mocks/server.ts`
and the mock API, async thunks, slice reducers and sequential fetch
chain in `src/demos/async-thunks/ThunkDemo.tsx`.

JavaScript-level behaviour is embedded explicitly:
- `%` on integers is truncated remainder (`Int.tmod`);
- indexing an array out of range yields `undefined`, modelled by
  `Option`; `x || d` on strings yields `d` when `x` is `undefined` or
  empty; interpolating `undefined` into a template literal prints the
  string `undefined`;
- each `Math.random()` draw is an explicit rational parameter `q` with
  `0 ≤ q < 1`; `Date.now()` and `new Date().toISOString()` are explicit
  time parameters;
- the outcome of a `fetch` against the companion mock HTTP server is an
  explicit environment parameter (`FetchNet`), since the demo code only
  branches on "threw / not ok / ok payload".
-/

namespace ReduxPlayground

/-- JS array read `l[i]`: `undefined` (`none`) when out of range, which
includes every negative index. -/
def jsIndex (l : List String) (i : Int) : Option String :=
  if i < 0 then none else l.get? i.toNat

/-- JS `x || d` where `x` is an optional string: falls back to `d` when
`x` is `undefined` or the empty string (both falsy). -/
def jsOrDefault (o : Option String) (d : String) : String :=
  match o with
  | some s => if s = "" then d else s
  | none => d

/-- Interpolation of a possibly-`undefined` string into a JS template
literal: `undefined` prints as the string `undefined`. -/
def jsTemplate (o : Option String) : String :=
  match o with
  | some s => s
  | none => "undefined"

def spaceChar : Char := Char.ofNat 32

def dotChar : Char := Char.ofNat 46

/-- Replace the first occurrence of `c` by `d`, as JS
`String.prototype.replace` with a string pattern does. -/
def replaceFirstAux (c d : Char) : List Char → List Char
  | [] => []
  | x :: xs => if x = c then d :: xs else x :: replaceFirstAux c d xs

/-- JS `s.replace(c, d)` for single-character patterns: only the first
occurrence is replaced. -/
def jsReplaceFirst (s : String) (c d : Char) : String :=
  String.mk (replaceFirstAux c d s.data)

/-- JS `s.toLowerCase()` on the ASCII strings this code handles:
character-wise ASCII lowercasing. -/
def jsToLower (s : String) : String :=
  String.mk (s.data.map Char.toLower)

/-- `Math.floor(q * n)` for a `Math.random()` draw `q`. -/
def jsRandFloor (q : ℚ) (n : ℕ) : ℤ :=
  ⌊q * (n : ℚ)⌋

/- ## Data model (`mocks/server.ts` interfaces) -/

/-- `User` from `mocks/server.ts`; the optional fields are `Option`. -/
structure User where
  id : ℤ
  name : String
  email : String
  phone : Option String := none
  website : Option String := none
  companyName : Option String := none
  posts : Option ℤ := none
  createdAt : Option String := none

/-- `Post` from `mocks/server.ts`; `title`/`body` are plain JS array
reads and so can be `undefined` for out-of-range indices. -/
structure Post where
  id : ℤ
  userId : ℤ
  title : Option String
  body : Option String
  createdAt : Option String := none

def MOCK_SERVER_URL : String := "http://localhost:3001"

def NETWORK_DELAY : ℕ := 500

/- ## Fixture generator (`mocks/server.ts`) -/

/-- `generateId`: `Date.now() + Math.floor(Math.random() * 1000)`. -/
def generateId (now : ℤ) (q : ℚ) : ℤ :=
  now + jsRandFloor q 1000

/-- The `names` pool of `generateMockUser`. -/
def userNames : List String :=
  ["Alex Johnson", "Sam Wilson", "Taylor Brown", "Jordan Davis", "Casey Miller"]

/-- The `domains` pool of `generateMockUser`. -/
def userDomains : List String :=
  ["example.com", "test.org", "demo.net", "sample.io", "mock.dev"]

/-- `generateMockUser(id)`; `q` is the `Math.random()` draw behind the
`posts` count and `nowIso` the `new Date().toISOString()` value. -/
def generateMockUser (id : ℤ) (q : ℚ) (nowIso : String) : User :=
  let name := jsOrDefault (jsIndex userNames (Int.tmod id (userNames.length : ℤ)))
    s!"User {id}"
  let email := jsReplaceFirst (jsToLower name) spaceChar dotChar ++ "@" ++
    jsTemplate (jsIndex userDomains (Int.tmod id (userDomains.length : ℤ)))
  { id := id
    name := name
    email := email
    posts := some (jsRandFloor q 20 + 1)
    createdAt := some nowIso }

/-- The `titles` pool of `generateMockPost`. -/
def postTitles : List String :=
  ["Understanding React Hooks", "Redux Best Practices", "Building Modern Web Apps",
   "JavaScript ES6 Features", "Async Programming Patterns"]

/-- The `bodies` pool of `generateMockPost`. -/
def postBodies : List String :=
  ["This is a comprehensive guide to understanding the concepts...",
   "Learn the fundamental principles and best practices...",
   "A deep dive into modern development techniques...",
   "Exploring the latest features and improvements...",
   "Practical examples and real-world applications..."]

/-- `generateMockPost(userId, postId)`; `nowIso` is the
`new Date().toISOString()` value. -/
def generateMockPost (userId postId : ℤ) (nowIso : String) : Post :=
  { id := postId
    userId := userId
    title := jsIndex postTitles (Int.tmod postId (postTitles.length : ℤ))
    body := jsIndex postBodies (Int.tmod postId (postBodies.length : ℤ))
    createdAt := some nowIso }

/- ## Network environment and mock API (`ThunkDemo.tsx`) -/

/-- Outcome of one `fetch` against the companion mock HTTP server, as
the demo code can observe it: the `fetch`/`json()` call threw, the
response arrived with `response.ok` false, or it arrived ok carrying a
parsed payload. -/
inductive FetchNet (α : Type) where
  | threw
  | notOk
  | ok (payload : α)

/-- Whether a network outcome is an ok response. -/
def FetchNet.isOk {α : Type} : FetchNet α → Bool
  | .ok _ => true
  | _ => false

/-- The posts call "failed or returned no data": it threw, was not ok,
or was ok with an empty list. -/
def postsUnavailable : FetchNet (List Post) → Bool
  | .ok ps => ps.isEmpty
  | _ => true

/-- Result of a mock API call, instrumented with whether the code
reached the underlying `fetch` of the mock server. -/
structure ApiCall (α : Type) where
  result : α
  fetchCalled : Bool

/-- `mockApi.fetchUser(id)`: after the simulated delay, throws
`User not found` for `id > 10` before any network call; otherwise uses
the mock-server response when it is ok, and falls back to
`generateMockUser(id)` when the fetch threw or the response was not ok.
`q`/`nowIso` are the random draw and timestamp consumed by the
fallback generator. -/
def mockApi.fetchUser (id : ℤ) (net : FetchNet User) (q : ℚ) (nowIso : String) :
    ApiCall (Except String User) :=
  if id > 10 then
    { result := Except.error "User not found", fetchCalled := false }
  else
    match net with
    | .ok u => { result := Except.ok u, fetchCalled := true }
    | .threw => { result := Except.ok (generateMockUser id q nowIso), fetchCalled := true }
    | .notOk => { result := Except.ok (generateMockUser id q nowIso), fetchCalled := true }

/-- The fallback branch of `mockApi.fetchUserPosts`: generates
`Math.floor(Math.random() * 5) + 1` posts with ids `Date.now() + i` for
`i = 1 .. postCount`. -/
def fallbackUserPosts (userId : ℤ) (q : ℚ) (now : ℤ) (nowIso : String) : List Post :=
  let postCount : ℤ := jsRandFloor q 5 + 1
  (List.range postCount.toNat).map
    (fun (i : ℕ) => generateMockPost userId (now + ((i : ℤ) + 1)) nowIso)

/-- `mockApi.fetchUserPosts(userId)`: returns the mock-server posts when
the response is ok and non-empty, and otherwise the generated fallback
posts. Never throws. -/
def mockApi.fetchUserPosts (userId : ℤ) (net : FetchNet (List Post)) (q : ℚ)
    (now : ℤ) (nowIso : String) : ApiCall (List Post) :=
  match net with
  | .ok posts =>
      if posts.length > 0 then { result := posts, fetchCalled := true }
      else { result := fallbackUserPosts userId q now nowIso, fetchCalled := true }
  | .threw => { result := fallbackUserPosts userId q now nowIso, fetchCalled := true }
  | .notOk => { result := fallbackUserPosts userId q now nowIso, fetchCalled := true }

/- ## Async thunks (`ThunkDemo.tsx`) -/

/-- Settled outcome of a `createAsyncThunk` dispatch: a fulfilled action
with its payload, or a rejected action whose payload is the
`rejectWithValue` message. -/
inductive ThunkResult (α : Type) where
  | fulfilled (payload : α)
  | rejected (message : String)

/-- Whether a thunk outcome is fulfilled. -/
def ThunkResult.isFulfilled {α : Type} : ThunkResult α → Bool
  | .fulfilled _ => true
  | .rejected _ => false

/-- The `users/fetchById` thunk: awaits `mockApi.fetchUser` and converts
any thrown error into `rejectWithValue(error.message)`. -/
def fetchUserById (userId : ℤ) (net : FetchNet User) (q : ℚ) (nowIso : String) :
    ApiCall (ThunkResult User) :=
  let c := mockApi.fetchUser userId net q nowIso
  match c.result with
  | Except.ok u => { result := ThunkResult.fulfilled u, fetchCalled := c.fetchCalled }
  | Except.error e => { result := ThunkResult.rejected e, fetchCalled := c.fetchCalled }

/-- The `users/fetchPosts` thunk: awaits `mockApi.fetchUserPosts` and
converts any thrown error into `rejectWithValue(error.message)` (the
mock API for posts never throws, so the thunk always fulfills). -/
def fetchUserPosts (userId : ℤ) (net : FetchNet (List Post)) (q : ℚ)
    (now : ℤ) (nowIso : String) : ApiCall (ThunkResult (List Post)) :=
  let c := mockApi.fetchUserPosts userId net q now nowIso
  { result := ThunkResult.fulfilled c.result, fetchCalled := c.fetchCalled }

/- ## The sequential chain `handleFetchBoth` (`ThunkDemo.tsx`) -/

/-- Observable outcome of one run of `handleFetchBoth`, instrumented
with whether and with which argument the posts thunk was dispatched. -/
structure BothOutcome where
  userOutcome : ThunkResult User
  postsInvoked : Bool
  postsArg : Option ℤ
  postsOutcome : Option (ThunkResult (List Post))

/-- `handleFetchBoth`: dispatches `fetchUserById` and `unwrap`s it; a
rejection throws, is caught, and the posts thunk is never dispatched;
on success the posts thunk is dispatched with `userResult.id`. -/
def handleFetchBoth (userId : ℤ) (unet : FetchNet User) (qU : ℚ) (nowU : String)
    (pnet : FetchNet (List Post)) (qP : ℚ) (nowP : ℤ) (nowIsoP : String) :
    BothOutcome :=
  match (fetchUserById userId unet qU nowU).result with
  | ThunkResult.rejected m =>
      { userOutcome := ThunkResult.rejected m
        postsInvoked := false
        postsArg := none
        postsOutcome := none }
  | ThunkResult.fulfilled u =>
      { userOutcome := ThunkResult.fulfilled u
        postsInvoked := true
        postsArg := some u.id
        postsOutcome := some (fetchUserPosts u.id pnet qP nowP nowIsoP).result }

/-- Modelled from the spec: the Mock Endpoint Registry serving
`GET /users/:id` (the json-server process over `mocks/db.json`, which is
not part of the sources here) per §4.2 `getById`: an ok response for
`/users/:id` carries the stored record matching `id` (seeded from, or
falling back to, the fixture generator), so its `id` field equals the
requested one. -/
def registryRespondsWithRequestedId (id : ℤ) (net : FetchNet User) : Prop :=
  ∀ u, net = FetchNet.ok u → u.id = id

/- ## Redux slice state and reducers (`ThunkDemo.tsx`) -/

/-- The `usersSlice` state shape of `ThunkDemo.tsx`. -/
structure UsersState where
  currentUser : Option User
  userPosts : List Post
  loading : Bool
  postsLoading : Bool
  error : Option String
  postsError : Option String

/-- `initialState` of `usersSlice`. -/
def initialState : UsersState :=
  { currentUser := none
    userPosts := []
    loading := false
    postsLoading := false
    error := none
    postsError := none }

/-- The `clearUser` reducer. -/
def clearUser (s : UsersState) : UsersState :=
  { s with currentUser := none, userPosts := [], error := none, postsError := none }

/-- The `clearErrors` reducer. -/
def clearErrors (s : UsersState) : UsersState :=
  { s with error := none, postsError := none }

/- ## Helper lemmas -/

lemma jsRandFloor_nonneg (q : ℚ) (h0 : 0 ≤ q) (n : ℕ) : 0 ≤ jsRandFloor q n := by
  exact Int.floor_nonneg.mpr (mul_nonneg h0 (by positivity))

lemma jsRandFloor_lt (q : ℚ) (h1 : q < 1) (n : ℕ) (hn : 0 < n) :
    jsRandFloor q n < (n : ℤ) := by
  apply Int.floor_lt.mpr
  push_cast
  calc q * (n : ℚ) < 1 * (n : ℚ) := by
        exact mul_lt_mul_of_pos_right h1 (by exact_mod_cast hn)
    _ = (n : ℚ) := one_mul _

/- ## Claim theorems -/

/-- C1: for every integer id greater than 10, the fetch-user demo path
(`mockApi.fetchUser` via the `fetchUserById` thunk) resolves as a
rejection whose payload is exactly `User not found`, and the underlying
network fetch against the mock server is not invoked. -/
theorem fetchUserById_above_threshold (id : ℤ) (h : 10 < id) (net : FetchNet User)
    (q : ℚ) (nowIso : String) :
    (fetchUserById id net q nowIso).result = ThunkResult.rejected "User not found" ∧
    (fetchUserById id net q nowIso).fetchCalled = false := by
  simp [fetchUserById, mockApi.fetchUser, h]

theorem fetchUserById_above_threshold_witness :
    (10 : ℤ) < 11 ∧
    ((fetchUserById 11 FetchNet.threw 0 "t").result =
        ThunkResult.rejected "User not found" ∧
      (fetchUserById 11 FetchNet.threw 0 "t").fetchCalled = false) :=
  ⟨by decide, fetchUserById_above_threshold 11 (by decide) FetchNet.threw 0 "t"⟩

/-- C3: in `handleFetchBoth`, the posts thunk is dispatched exactly when
the user fetch fulfills; on rejection it is never invoked, and on
success it is invoked with the id taken from the returned user record,
its outcome being that of `fetchUserPosts` at that id. -/
theorem handleFetchBoth_sequencing (userId : ℤ) (unet : FetchNet User) (qU : ℚ)
    (nowU : String) (pnet : FetchNet (List Post)) (qP : ℚ) (nowP : ℤ)
    (nowIsoP : String) :
    (handleFetchBoth userId unet qU nowU pnet qP nowP nowIsoP).userOutcome =
      (fetchUserById userId unet qU nowU).result ∧
    (handleFetchBoth userId unet qU nowU pnet qP nowP nowIsoP).postsInvoked =
      ((fetchUserById userId unet qU nowU).result).isFulfilled ∧
    (handleFetchBoth userId unet qU nowU pnet qP nowP nowIsoP).postsArg =
      (match (fetchUserById userId unet qU nowU).result with
        | ThunkResult.fulfilled u => some u.id
        | ThunkResult.rejected _ => none) ∧
    (handleFetchBoth userId unet qU nowU pnet qP nowP nowIsoP).postsOutcome =
      (match (fetchUserById userId unet qU nowU).result with
        | ThunkResult.fulfilled u => some (fetchUserPosts u.id pnet qP nowP nowIsoP).result
        | ThunkResult.rejected _ => none) := by
  cases h : (fetchUserById userId unet qU nowU).result <;>
    simp [handleFetchBoth, h, ThunkResult.isFulfilled]

/-- C4: both thunks settle to exactly one of the two outcome shapes
(fulfilled payload or rejected message); every error thrown inside
`mockApi.fetchUser` is converted into a rejection carrying its message,
and the posts thunk fulfills with the mock API's list — no exception
escapes to the caller. -/
theorem thunks_two_outcome_shapes (userId : ℤ) (unet : FetchNet User) (qU : ℚ)
    (nowU : String) (pnet : FetchNet (List Post)) (qP : ℚ) (nowP : ℤ)
    (nowIsoP : String) :
    ((∃ u, (fetchUserById userId unet qU nowU).result = ThunkResult.fulfilled u) ∨
      (∃ m, (fetchUserById userId unet qU nowU).result = ThunkResult.rejected m)) ∧
    (fetchUserById userId unet qU nowU).result =
      (match (mockApi.fetchUser userId unet qU nowU).result with
        | Except.ok u => ThunkResult.fulfilled u
        | Except.error m => ThunkResult.rejected m) ∧
    (fetchUserPosts userId pnet qP nowP nowIsoP).result =
      ThunkResult.fulfilled (mockApi.fetchUserPosts userId pnet qP nowP nowIsoP).result := by
  refine ⟨?_, ?_, rfl⟩
  · cases h : (fetchUserById userId unet qU nowU).result with
    | fulfilled u => exact Or.inl ⟨u, rfl⟩
    | rejected m => exact Or.inr ⟨m, rfl⟩
  · cases h : (mockApi.fetchUser userId unet qU nowU).result <;>
      simp [fetchUserById, h]

/-- C2: for every id in `[1, 10]` the mock API's `fetchUser` succeeds,
and — given the spec-modelled registry guarantee that an ok `/users/:id`
response carries the record with the requested id — the returned
record's `id` field equals the requested id (the fallback generator
also stamps the requested id). -/
theorem fetchUser_in_range_succeeds (id : ℤ) (hlo : 1 ≤ id) (hhi : id ≤ 10)
    (net : FetchNet User) (q : ℚ) (nowIso : String)
    (hreg : registryRespondsWithRequestedId id net) :
    ((mockApi.fetchUser id net q nowIso).result).map User.id = Except.ok id := by
  have hng : ¬ (10 : ℤ) < id := not_lt.mpr hhi
  cases net with
  | ok u =>
      have hid := hreg u rfl
      simp [mockApi.fetchUser, hng, Except.map, hid]
  | threw => simp [mockApi.fetchUser, hng, Except.map, generateMockUser]
  | notOk => simp [mockApi.fetchUser, hng, Except.map, generateMockUser]

theorem fetchUser_in_range_succeeds_witness :
    (1 : ℤ) ≤ 5 ∧ (5 : ℤ) ≤ 10 ∧
    ((mockApi.fetchUser 5 FetchNet.threw 0 "u").result).map User.id = Except.ok 5 :=
  ⟨by decide, by decide,
    fetchUser_in_range_succeeds 5 (by decide) (by decide) FetchNet.threw 0 "u"
      (by intro u hu; cases hu)⟩

/-- C5: when the live network call fails or returns no data, reads fall
back to generated fixtures: `mockApi.fetchUser` (id not above the
sentinel threshold) returns `generateMockUser(id)`, and
`mockApi.fetchUserPosts` returns a non-empty generated list of posts
all owned by the requested user id. -/
theorem read_fallback_on_failure (id userId now : ℤ) (hid : id ≤ 10)
    (qU qP : ℚ) (hp0 : 0 ≤ qP) (hp1 : qP < 1) (uIso pIso : String)
    (unet : FetchNet User) (hu : unet.isOk = false)
    (pnet : FetchNet (List Post)) (hp : postsUnavailable pnet = true) :
    (mockApi.fetchUser id unet qU uIso).result = Except.ok (generateMockUser id qU uIso) ∧
    (mockApi.fetchUserPosts userId pnet qP now pIso).result ≠ [] ∧
    (mockApi.fetchUserPosts userId pnet qP now pIso).result.all
      (fun p => p.userId == userId) = true := by
  have hng : ¬ (10 : ℤ) < id := not_lt.mpr hid
  have h5a := jsRandFloor_nonneg qP hp0 5
  have hfb_ne : fallbackUserPosts userId qP now pIso ≠ [] := by
    have hlen : 1 ≤ (fallbackUserPosts userId qP now pIso).length := by
      simp only [fallbackUserPosts, List.length_map, List.length_range]
      omega
    intro hnil
    rw [hnil] at hlen
    simp at hlen
  have hfb_all : (fallbackUserPosts userId qP now pIso).all
      (fun p => p.userId == userId) = true := by
    rw [List.all_eq_true]
    intro p hpmem
    simp only [fallbackUserPosts, List.mem_map, List.mem_range] at hpmem
    obtain ⟨i, hi, rfl⟩ := hpmem
    simp [generateMockPost]
  refine ⟨?_, ?_, ?_⟩
  · cases unet with
    | ok u => simp [FetchNet.isOk] at hu
    | threw => simp [mockApi.fetchUser, hng]
    | notOk => simp [mockApi.fetchUser, hng]
  · cases pnet with
    | ok ps =>
        have hps : ps = [] := by simpa [postsUnavailable, List.isEmpty_iff] using hp
        subst hps
        simpa [mockApi.fetchUserPosts] using hfb_ne
    | threw => simpa [mockApi.fetchUserPosts] using hfb_ne
    | notOk => simpa [mockApi.fetchUserPosts] using hfb_ne
  · cases pnet with
    | ok ps =>
        have hps : ps = [] := by simpa [postsUnavailable, List.isEmpty_iff] using hp
        subst hps
        simpa [mockApi.fetchUserPosts] using hfb_all
    | threw => simpa [mockApi.fetchUserPosts] using hfb_all
    | notOk => simpa [mockApi.fetchUserPosts] using hfb_all

theorem read_fallback_on_failure_witness :
    (3 : ℤ) ≤ 10 ∧ (0 : ℚ) ≤ 1/2 ∧ (1/2 : ℚ) < 1 ∧
    FetchNet.isOk (FetchNet.threw : FetchNet User) = false ∧
    postsUnavailable (FetchNet.ok []) = true ∧
    ((mockApi.fetchUser 3 FetchNet.threw 0 "u").result =
        Except.ok (generateMockUser 3 0 "u") ∧
      (mockApi.fetchUserPosts 7 (FetchNet.ok []) (1/2) 0 "p").result ≠ [] ∧
      (mockApi.fetchUserPosts 7 (FetchNet.ok []) (1/2) 0 "p").result.all
        (fun p => p.userId == (7 : ℤ)) = true) :=
  ⟨by decide, by norm_num, by norm_num, rfl, rfl,
    read_fallback_on_failure 3 7 0 (by decide) 0 (1/2) (by norm_num) (by norm_num)
      "u" "p" FetchNet.threw rfl (FetchNet.ok []) rfl⟩

/-- C6: two calls of `generateMockUser` with the same id, whatever their
random draws and timestamps, agree on the `id`, `name` and `email`
fields (only `posts` and `createdAt` depend on the per-call draws). -/
theorem generateMockUser_stable_identity (id : ℤ) (q₁ q₂ : ℚ) (t₁ t₂ : String) :
    (generateMockUser id q₁ t₁).id = (generateMockUser id q₂ t₂).id ∧
    (generateMockUser id q₁ t₁).name = (generateMockUser id q₂ t₂).name ∧
    (generateMockUser id q₁ t₁).email = (generateMockUser id q₂ t₂).email :=
  ⟨rfl, rfl, rfl⟩

/-- C7 (counterexample): at the negative integer id `-1` the JS
remainder is `-1`, both pool lookups are out of range, the name falls
back to `User -1` (not a pool name) and the domain renders as
`undefined` (not a pool domain), so the claim fails for "every
integer". -/
theorem generateMockUser_negative_id_counterexample :
    (generateMockUser (-1) 0 "t").name = "User -1" ∧
    userNames.contains "User -1" = false ∧
    (generateMockUser (-1) 0 "t").email = "user.-1@undefined" ∧
    userDomains.contains "undefined" = false := by
  decide

/-- C7 (amended to nonnegative ids): for every nonnegative integer id,
`generateMockUser` selects name and domain from the fixed pools at
index `id` modulo the pool size 5, and synthesizes the email as the
lowercased name with its space replaced by a dot, followed by `@` and
the selected domain. -/
theorem generateMockUser_pool_selection (id : ℤ) (h : 0 ≤ id) (q : ℚ)
    (nowIso : String) :
    (Int.tmod id 5).toNat < 5 ∧
    (generateMockUser id q nowIso).name = userNames.getD (Int.tmod id 5).toNat "" ∧
    (generateMockUser id q nowIso).email =
      jsReplaceFirst (jsToLower (userNames.getD (Int.tmod id 5).toNat ""))
          spaceChar dotChar
        ++ "@" ++ userDomains.getD (Int.tmod id 5).toNat "" := by
  obtain ⟨k, hk5, hkeq⟩ : ∃ k : ℕ, k < 5 ∧ Int.tmod id 5 = (k : ℤ) := by
    have h1 := Int.tmod_lt_of_pos id (show (0 : ℤ) < 5 by norm_num)
    have h2 := Int.tmod_nonneg (b := 5) h
    exact ⟨(Int.tmod id 5).toNat, by omega, by omega⟩
  refine ⟨by omega, ?_, ?_⟩ <;>
    (interval_cases k <;>
      simp_all [generateMockUser, jsIndex, jsOrDefault, jsTemplate, userNames,
        userDomains])

theorem generateMockUser_pool_selection_witness :
    (0 : ℤ) ≤ 7 ∧
    ((Int.tmod 7 5).toNat < 5 ∧
      (generateMockUser 7 0 "x").name = userNames.getD (Int.tmod 7 5).toNat "" ∧
      (generateMockUser 7 0 "x").email =
        jsReplaceFirst (jsToLower (userNames.getD (Int.tmod 7 5).toNat ""))
            spaceChar dotChar
          ++ "@" ++ userDomains.getD (Int.tmod 7 5).toNat "") :=
  ⟨by decide, generateMockUser_pool_selection 7 (by decide) 0 "x"⟩

/-- C8: `generateId` is the current millisecond time plus the floor of
`Math.random() * 1000`, so it lies between `Date.now()` and
`Date.now() + 999` inclusive; distinct calls can collide (here two
calls at different times with suitable draws return the same id), so
uniqueness is only probabilistic. -/
theorem generateId_time_plus_offset (now : ℤ) (q : ℚ) (h0 : 0 ≤ q) (h1 : q < 1) :
    generateId now q = now + jsRandFloor q 1000 ∧
    now ≤ generateId now q ∧
    generateId now q ≤ now + 999 ∧
    generateId 0 (1/1000) = generateId 1 0 := by
  have ha := jsRandFloor_nonneg q h0 1000
  have hb := jsRandFloor_lt q h1 1000 (by norm_num)
  refine ⟨rfl, by unfold generateId; omega, by unfold generateId; omega, ?_⟩
  norm_num [generateId, jsRandFloor]

theorem generateId_time_plus_offset_witness :
    (0 : ℚ) ≤ 1/2 ∧ (1/2 : ℚ) < 1 ∧
    (1700000000000 : ℤ) ≤ generateId 1700000000000 (1/2) ∧
    generateId 1700000000000 (1/2) ≤ 1700000000000 + 999 :=
  ⟨by norm_num, by norm_num,
    (generateId_time_plus_offset 1700000000000 (1/2) (by norm_num) (by norm_num)).2.1,
    (generateId_time_plus_offset 1700000000000 (1/2) (by norm_num) (by norm_num)).2.2.1⟩

/-- C9: given random draws in `[0, 1)`, the `posts` count stamped by
`generateMockUser` is an integer in `[1, 20]`, and the fallback post
list generated by `mockApi.fetchUserPosts` has between 1 and 5
elements. -/
theorem randomized_field_ranges (id userId now : ℤ) (q r : ℚ)
    (hq0 : 0 ≤ q) (hq1 : q < 1) (hr0 : 0 ≤ r) (hr1 : r < 1)
    (tIso pIso : String) :
    (generateMockUser id q tIso).posts ≠ none ∧
    1 ≤ ((generateMockUser id q tIso).posts.getD 0) ∧
    ((generateMockUser id q tIso).posts.getD 0) ≤ 20 ∧
    1 ≤ (fallbackUserPosts userId r now pIso).length ∧
    (fallbackUserPosts userId r now pIso).length ≤ 5 := by
  have h20a := jsRandFloor_nonneg q hq0 20
  have h20b := jsRandFloor_lt q hq1 20 (by norm_num)
  have h5a := jsRandFloor_nonneg r hr0 5
  have h5b := jsRandFloor_lt r hr1 5 (by norm_num)
  refine ⟨by simp [generateMockUser], ?_, ?_, ?_, ?_⟩
  · simp [generateMockUser]
    omega
  · simp [generateMockUser]
    omega
  · simp only [fallbackUserPosts, List.length_map, List.length_range]
    omega
  · simp only [fallbackUserPosts, List.length_map, List.length_range]
    omega

theorem randomized_field_ranges_witness :
    (0 : ℚ) ≤ 1/2 ∧ (1/2 : ℚ) < 1 ∧ (0 : ℚ) ≤ 1/3 ∧ (1/3 : ℚ) < 1 ∧
    ((generateMockUser 1 (1/2) "t").posts ≠ none ∧
      1 ≤ ((generateMockUser 1 (1/2) "t").posts.getD 0) ∧
      ((generateMockUser 1 (1/2) "t").posts.getD 0) ≤ 20 ∧
      1 ≤ (fallbackUserPosts 2 (1/3) 0 "p").length ∧
      (fallbackUserPosts 2 (1/3) 0 "p").length ≤ 5) :=
  ⟨by norm_num, by norm_num, by norm_num, by norm_num,
    randomized_field_ranges 1 2 0 (1/2) (1/3) (by norm_num) (by norm_num)
      (by norm_num) (by norm_num) "t" "p"⟩

/-- C10: the `clearUser` reducer sets `currentUser` to null, `userPosts`
to the empty list and both error fields to null, while leaving the
`loading` and `postsLoading` flags unchanged. -/
theorem clearUser_resets_data_not_loading (s : UsersState) :
    (clearUser s).currentUser = none ∧
    (clearUser s).userPosts = [] ∧
    (clearUser s).error = none ∧
    (clearUser s).postsError = none ∧
    (clearUser s).loading = s.loading ∧
    (clearUser s).postsLoading = s.postsLoading :=
  ⟨rfl, rfl, rfl, rfl, rfl, rfl⟩

end ReduxPlayground
